import Mathlib

/-!
Verification development for the callosum RPC message codec
(src/callosum/rpc/message.py).

The module encodes and decodes RPCMessage values to a two-frame wire
format: a msgpack-encoded header map and a msgpack-encoded data map
holding the metadata bytes and the body, the latter frame optionally
compressed with snappy.

Modelling conventions:

* `mpackb` and `munpackb` live in callosum/serialize.py, which is not part
  of the sources given here; they wrap the external msgpack library.
  Modelled from the spec: a structured-value encoder producing an opaque
  byte string, with its exact inverse as a decoder.  We represent byte
  strings by a free term algebra `MP`: `MP.raw bs` is a plain byte string,
  `MP.packed v` denotes the msgpack encoding of the structured value `v`,
  and `MP.compressed b` denotes the snappy compression of the byte string
  `b`.  Distinct constructors denote distinct byte strings, reflecting that
  msgpack is injective; `MP.packed v` and `MP.compressed b` are never the
  empty byte string, reflecting that every msgpack encoding and every
  snappy compression of a nonempty input occupies at least one byte (the
  msgpack encoding of the empty list, for instance, is the single byte
  0x90).
* Python values that travel inside packed structures (header fields,
  metadata fields, bodies) are likewise `MP` values: `MP.nil` is None,
  `MP.int`, `MP.str`, `MP.bool`, `MP.arr`, `MP.map` are the evident
  Python values.  attrs classes perform no type validation, so metadata
  fields and envelope fields other than `msgtype` are `MP`-typed.
* The module-level flag `has_snappy` (set by the import try/except) is an
  explicit boolean parameter `hS` of `encode` and `decode`.
* Python exceptions raised by the codec become an `Except PyError` result.
-/

/-- Structured values and byte strings of the wire model. -/
inductive MP where
  | nil : MP
  | bool : Bool → MP
  | int : Int → MP
  | str : String → MP
  | raw : List Nat → MP
  | arr : List MP → MP
  | map : List (String × MP) → MP
  | packed : MP → MP
  | compressed : MP → MP

/-- Modelled from the spec: mpackb of callosum/serialize.py, the msgpack
encoder.  In the free byte-string algebra it is the constructor `MP.packed`. -/
def mpackb (v : MP) : MP := MP.packed v

/-- Modelled from the spec: munpackb of callosum/serialize.py, the msgpack
decoder; it succeeds exactly on byte strings produced by `mpackb` and
returns the encoded value. -/
def munpackb (b : MP) : Option MP :=
  match b with
  | .packed v => some v
  | _ => none

/-- Whether a byte string is the empty byte string; only the plain empty
byte string is -- a packed or compressed blob always has at least one byte. -/
def MP.isEmptyBytes (b : MP) : Bool :=
  match b with
  | .raw [] => true
  | _ => false

/-- Python truthiness of a value, used by decode on the zip header field. -/
def MP.truthy (v : MP) : Bool :=
  match v with
  | .nil => false
  | .bool b => b
  | .int i => decide (i ≠ 0)
  | .str s => decide (s ≠ "")
  | .raw bs => !bs.isEmpty
  | .arr vs => !vs.isEmpty
  | .map kvs => !kvs.isEmpty
  | .packed _ => true
  | .compressed _ => true

/-- Conversion between a msgpack value and a Python Optional: the msgpack
nil is None, everything else is the value itself. -/
def pyOptional (v : MP) : Option MP :=
  match v with
  | .nil => none
  | v => some v

/-- Exceptions the codec can raise. -/
inductive PyError where
  | configurationError : String → PyError
  | valueError : PyError
  | typeError : PyError
  | keyError : PyError
  | unpackError : PyError
  | snappyError : PyError
deriving DecidableEq

/-- Python dict lookup on a msgpack map value: a missing key raises
KeyError, subscripting a non-map raises TypeError. -/
def getKey (v : MP) (key : String) : Except PyError MP :=
  match v with
  | .map kvs => mapGet kvs key
  | _ => .error .typeError
where
  mapGet : List (String × MP) → String → Except PyError MP
    | [], _ => .error .keyError
    | (k, x) :: rest, key => if k = key then .ok x else mapGet rest key

/-- Modelled from the spec: snappy.decompress; inverts `MP.compressed`
and raises on any byte string that is not a snappy compression. -/
def snappyDecompress (b : MP) : Except PyError MP :=
  match b with
  | .compressed x => .ok x
  | _ => .error .snappyError

/-- RPCMessageTypes of message.py: the six message types with their
IntEnum values 0..5. -/
inductive RPCMessageTypes where
  | function : RPCMessageTypes
  | stream : RPCMessageTypes
  | result : RPCMessageTypes
  | failure : RPCMessageTypes
  | error : RPCMessageTypes
  | cancel : RPCMessageTypes
deriving DecidableEq

/-- The IntEnum value of each message type. -/
def RPCMessageTypes.toInt : RPCMessageTypes → Int
  | .function => 0
  | .stream => 1
  | .result => 2
  | .failure => 3
  | .error => 4
  | .cancel => 5

/-- The IntEnum index of each message type, for indexing metadata_types. -/
def RPCMessageTypes.toNat : RPCMessageTypes → Nat
  | .function => 0
  | .stream => 1
  | .result => 2
  | .failure => 3
  | .error => 4
  | .cancel => 5

/-- The IntEnum constructor RPCMessageTypes(x): accepts exactly the
integers 0..5, raising ValueError on anything else. -/
def rpcMessageTypeOf (v : MP) : Except PyError RPCMessageTypes :=
  match v with
  | .int i =>
      if i = 0 then .ok .function
      else if i = 1 then .ok .stream
      else if i = 2 then .ok .result
      else if i = 3 then .ok .failure
      else if i = 4 then .ok .error
      else if i = 5 then .ok .cancel
      else .error .valueError
  | _ => .error .valueError

/-- The metadata variants: FunctionMetadata, ResultMetadata,
StreamMetadata, ErrorMetadata, NullMetadata of message.py, as one closed
sum.  attrs performs no type validation, so the fields are raw values. -/
inductive Metadata where
  | function : Metadata
  | result : Metadata
  | stream : (resource_name : MP) → (length : MP) → Metadata
  | error : (name : MP) → (traceback : MP) → Metadata
  | null : Metadata

/-- TupleEncodingMixin.encode: the field values of the variant, in
declaration order, packed as one msgpack list. -/
def Metadata.encode : Metadata → MP
  | .function => mpackb (.arr [])
  | .result => mpackb (.arr [])
  | .stream rn len => mpackb (.arr [rn, len])
  | .error n tb => mpackb (.arr [n, tb])
  | .null => mpackb (.arr [])

/-- The metadata classes as they appear in the metadata_types table. -/
inductive MetadataClass where
  | FunctionMetadata : MetadataClass
  | StreamMetadata : MetadataClass
  | ResultMetadata : MetadataClass
  | ErrorMetadata : MetadataClass
  | NullMetadata : MetadataClass
deriving DecidableEq

/-- The class of a metadata instance. -/
def Metadata.cls : Metadata → MetadataClass
  | .function => .FunctionMetadata
  | .result => .ResultMetadata
  | .stream _ _ => .StreamMetadata
  | .error _ _ => .ErrorMetadata
  | .null => .NullMetadata

/-- TupleEncodingMixin.decode as a classmethod of each variant class: an
empty buffer yields None; otherwise the buffer is unpacked and the class
is applied to the unpacked values positionally.  A buffer that is not a
valid msgpack encoding raises; applying a class to the wrong number of
positional values raises TypeError. -/
def MetadataClass.decode (c : MetadataClass) (buffer : MP) :
    Except PyError (Option Metadata) :=
  if buffer.isEmptyBytes then .ok none
  else
    match munpackb buffer with
    | none => .error .unpackError
    | some (.arr vs) =>
        match c, vs with
        | .FunctionMetadata, [] => .ok (some .function)
        | .StreamMetadata, [a, b] => .ok (some (.stream a b))
        | .ResultMetadata, [] => .ok (some .result)
        | .ErrorMetadata, [a, b] => .ok (some (.error a b))
        | .NullMetadata, [] => .ok (some .null)
        | _, _ => .error .typeError
    | some _ => .error .typeError

/-- metadata_types of message.py: the type-to-variant table, mapped from
RPCMessageTypes as index; the ErrorMetadata entry at index 4 is an
intended duplication of the one at index 3. -/
def metadata_types : List MetadataClass :=
  [ .FunctionMetadata,
    .StreamMetadata,
    .ResultMetadata,
    .ErrorMetadata,
    .ErrorMetadata,
    .NullMetadata ]

/-- Indexing metadata_types by a message type, as decode does. -/
def metadataClassFor (t : RPCMessageTypes) : MetadataClass :=
  metadata_types.get ⟨t.toNat, by cases t <;> decide⟩

/-- RPCMessage of message.py.  The msgtype field genuinely carries a
member of the enum (decode builds it through the validating IntEnum
constructor); the remaining envelope fields are unvalidated values. -/
structure RPCMessage where
  msgtype : RPCMessageTypes
  method : MP
  order_key : MP
  seq_id : MP
  metadata : Option Metadata
  body : Option MP

/-- RPCMessage.request_id: the correlation triple. -/
def RPCMessage.request_id (m : RPCMessage) : MP × MP × MP :=
  (m.method, m.order_key, m.seq_id)

/-- The captured current exception used by the failure and error
builders: sys.exc_info()[0].__name__ and traceback.format_exc(). -/
structure CurrentExc where
  name : String
  formatted : String

/-- RPCMessage.result: a RESULT reply carrying the correlation triple of
the request, empty ResultMetadata, and the given body. -/
def RPCMessage.result (request : RPCMessage) (result_body : Option MP) :
    RPCMessage :=
  ⟨.result, request.method, request.order_key, request.seq_id,
    some .result, result_body⟩

/-- RPCMessage.failure: a FAILURE reply carrying the correlation triple of
the request and ErrorMetadata built from the current exception, body None. -/
def RPCMessage.failure (request : RPCMessage) (exc : CurrentExc) :
    RPCMessage :=
  ⟨.failure, request.method, request.order_key, request.seq_id,
    some (.error (.str exc.name) (.str exc.formatted)), none⟩

/-- RPCMessage.error: an ERROR reply carrying the correlation triple of
the request and ErrorMetadata built from the current exception, body None. -/
def RPCMessage.error (request : RPCMessage) (exc : CurrentExc) :
    RPCMessage :=
  ⟨.error, request.method, request.order_key, request.seq_id,
    some (.error (.str exc.name) (.str exc.formatted)), none⟩

/-- RPCMessage.cancel: a CANCEL reply carrying the correlation triple of
the request, empty NullMetadata, and body None. -/
def RPCMessage.cancel (request : RPCMessage) : RPCMessage :=
  ⟨.cancel, request.method, request.order_key, request.seq_id,
    some .null, none⟩

/-- RPCMessage.encode: pack the header map and the data map, compressing
the data frame when requested; with compression requested and snappy
unavailable, raise ConfigurationError. -/
def RPCMessage.encode (hS : Bool) (m : RPCMessage)
    (serializer : Option MP → MP) (compress : Bool) :
    Except PyError (MP × MP) :=
  let metadata : MP :=
    match m.metadata with
    | none => .raw []
    | some md => md.encode
  let header : MP := .map
    [ ("type", .int m.msgtype.toInt),
      ("meth", m.method),
      ("okey", m.order_key),
      ("seq", m.seq_id),
      ("zip", .bool compress) ]
  let serialized_header : MP := mpackb header
  let body : MP :=
    if m.msgtype = .function ∨ m.msgtype = .result then serializer m.body
    else m.body.getD .nil
  let data : MP := .map [("meta", metadata), ("body", body)]
  let serialized_data : MP := mpackb data
  if compress then
    if hS then .ok (serialized_header, .compressed serialized_data)
    else .error (.configurationError "python-snappy is not installed")
  else .ok (serialized_header, serialized_data)

/-- RPCMessage.decode: unpack the header, validate the message type,
decompress the data frame when the zip field is truthy (raising
ConfigurationError when snappy is unavailable), unpack the data map,
rebuild the metadata through the type-to-variant table, and apply the
deserializer to the body for FUNCTION and RESULT messages only. -/
def RPCMessage.decode (hS : Bool) (raw_msg : MP × MP)
    (deserializer : MP → Option MP) : Except PyError RPCMessage :=
  match munpackb raw_msg.1 with
  | none => .error .unpackError
  | some header =>
    match getKey header "type" with
    | .error e => .error e
    | .ok tval =>
      match rpcMessageTypeOf tval with
      | .error e => .error e
      | .ok msgtype =>
        match getKey header "zip" with
        | .error e => .error e
        | .ok compressed =>
          let step : Except PyError MP :=
            if compressed.truthy then
              if hS then snappyDecompress raw_msg.2
              else .error (.configurationError "python-snappy is not installed")
            else .ok raw_msg.2
          match step with
          | .error e => .error e
          | .ok raw_data =>
            match munpackb raw_data with
            | none => .error .unpackError
            | some data =>
              match getKey data "meta" with
              | .error e => .error e
              | .ok meta_b =>
                match (metadataClassFor msgtype).decode meta_b with
                | .error e => .error e
                | .ok metadata =>
                  match getKey data "body" with
                  | .error e => .error e
                  | .ok body_b =>
                    let body : Option MP :=
                      if msgtype = .function ∨ msgtype = .result then
                        deserializer body_b
                      else pyOptional body_b
                    match getKey header "meth" with
                    | .error e => .error e
                    | .ok meth =>
                      match getKey header "okey" with
                      | .error e => .error e
                      | .ok okey =>
                        match getKey header "seq" with
                        | .error e => .error e
                        | .ok seq =>
                          .ok ⟨msgtype, meth, okey, seq, metadata, body⟩

/-- The header map encode builds for a message, with the given zip flag. -/
def headerMap (t : RPCMessageTypes) (meth okey seq : MP) (zip : Bool) : MP :=
  .map
    [ ("type", .int t.toInt),
      ("meth", meth),
      ("okey", okey),
      ("seq", seq),
      ("zip", .bool zip) ]

/-- The metadata byte string encode builds for an optional metadata. -/
def metaBytes : Option Metadata → MP
  | none => .raw []
  | some md => md.encode

/-- A message whose metadata variant, when present, matches the entry of
the type-to-variant table for its message type. -/
def RPCMessage.metadataMatches (m : RPCMessage) : Prop :=
  ∀ md, m.metadata = some md → md.cls = metadataClassFor m.msgtype

/-- A sample serializer used by concrete witnesses: packs the optional body
value as a msgpack blob. -/
def sampleSerializer : Option MP → MP
  | none => mpackb .nil
  | some v => mpackb (.arr [v])

/-- The exact inverse of sampleSerializer. -/
def sampleDeserializer : MP → Option MP
  | .packed .nil => none
  | .packed (.arr [v]) => some v
  | _ => none

/-- A sample FUNCTION request message. -/
def sampleRequest : RPCMessage :=
  ⟨.function, .str "add", .str "", .int 1, some .function, some (.raw [2, 3])⟩

/-- A sample CANCEL message. -/
def sampleCancelMsg : RPCMessage :=
  ⟨.cancel, .str "c", .str "", .int 2, some .null, none⟩

/-- The wire pair produced by encoding sampleRequest with sampleSerializer
and no compression. -/
def samplePair : MP × MP :=
  (mpackb (headerMap .function (.str "add") (.str "") (.int 1) false),
   mpackb (.map [("meta", mpackb (.arr [])),
     ("body", mpackb (.arr [.raw [2, 3]]))]))

/-- Decoding the tuple encoding of a metadata variant through its own class
reconstructs the variant. -/
theorem metadata_roundtrip (md : Metadata) :
    MetadataClass.decode md.cls md.encode = .ok (some md) := by
  cases md <;> rfl

/-- Decoding a zero-length metadata buffer yields the None sentinel for
every class. -/
theorem metadata_decode_empty (c : MetadataClass) :
    MetadataClass.decode c (.raw []) = .ok none := rfl

/-- The metadata bytes written by encode decode back to the original
optional metadata whenever the variant matches the table entry. -/
theorem metaBytes_decode (mt : RPCMessageTypes) (md : Option Metadata)
    (hcls : ∀ mdv, md = some mdv → mdv.cls = metadataClassFor mt) :
    (metadataClassFor mt).decode (metaBytes md) = .ok md := by
  cases md with
  | none => exact metadata_decode_empty _
  | some mdv =>
      rw [show metaBytes (some mdv) = mdv.encode from rfl, ← hcls mdv rfl]
      exact metadata_roundtrip mdv

/-- Evaluation of decode on an uncompressed well-formed frame pair. -/
theorem decode_wire (hS : Bool) (t : RPCMessageTypes) (meth okey seq mb bb : MP)
    (d : MP → Option MP) :
    RPCMessage.decode hS
      (mpackb (headerMap t meth okey seq false),
       mpackb (.map [("meta", mb), ("body", bb)])) d =
      (match (metadataClassFor t).decode mb with
        | .error e => .error e
        | .ok metadata =>
            .ok ⟨t, meth, okey, seq, metadata,
              if t = .function ∨ t = .result then d bb else pyOptional bb⟩) := by
  cases t <;> rfl

/-- Evaluation of decode on a compressed well-formed frame pair when snappy
is available. -/
theorem decode_wire_zip (t : RPCMessageTypes) (meth okey seq mb bb : MP)
    (d : MP → Option MP) :
    RPCMessage.decode true
      (mpackb (headerMap t meth okey seq true),
       .compressed (mpackb (.map [("meta", mb), ("body", bb)]))) d =
      (match (metadataClassFor t).decode mb with
        | .error e => .error e
        | .ok metadata =>
            .ok ⟨t, meth, okey, seq, metadata,
              if t = .function ∨ t = .result then d bb else pyOptional bb⟩) := by
  cases t <;> rfl

/-- Core of the round-trip argument, shared by both compression modes. -/
theorem roundtrip_core (mt : RPCMessageTypes) (meth okey seq : MP)
    (md : Option Metadata) (body : Option MP)
    (s : Option MP → MP) (d : MP → Option MP)
    (hinv : ∀ x, d (s x) = x)
    (hcls : ∀ mdv, md = some mdv → mdv.cls = metadataClassFor mt)
    (hbody : body ≠ some MP.nil) :
    (match (metadataClassFor mt).decode (metaBytes md) with
      | Except.error e => Except.error e
      | Except.ok metadata =>
          Except.ok (⟨mt, meth, okey, seq, metadata,
            if mt = .function ∨ mt = .result then
              d (if mt = .function ∨ mt = .result then s body else body.getD .nil)
            else pyOptional (if mt = .function ∨ mt = .result then s body
                             else body.getD .nil)⟩ : RPCMessage) :
        Except PyError RPCMessage) =
      .ok ⟨mt, meth, okey, seq, md, body⟩ := by
  rw [metaBytes_decode mt md hcls]
  by_cases hmt : mt = .function ∨ mt = .result
  · simp [hmt, hinv]
  · have hb : pyOptional (body.getD .nil) = body := by
      cases body with
      | none => rfl
      | some b => cases b <;> first | rfl | exact absurd rfl hbody
    simp [hmt, hb]

/-- A successful metadata decode through a class yields an instance of that
class. -/
theorem metadata_decode_cls (c : MetadataClass) (b : MP) (mdv : Metadata)
    (h : MetadataClass.decode c b = .ok (some mdv)) : mdv.cls = c := by
  unfold MetadataClass.decode at h
  split at h
  · simp at h
  · split at h
    · simp at h
    · split at h
      all_goals try simp at h
      all_goals (subst h; rfl)
    · simp at h

/-- C1: for every message whose metadata is absent or matches the
type-to-variant table, and every serializer with exact inverse
deserializer, decoding the header and body frames produced by encode with
compress set to false yields the original message; with compress set to
true the same round-trip holds whenever the compressor is available.  The
hbody hypothesis records the Optional-bytes typing of the body field: a
present body is a bytes object, never the None value. -/
theorem C1_encode_decode_roundtrip (hS : Bool) (m : RPCMessage)
    (s : Option MP → MP) (d : MP → Option MP) (compress : Bool)
    (hinv : ∀ x, d (s x) = x)
    (hmeta : m.metadataMatches)
    (hbody : m.body ≠ some MP.nil)
    (hzip : compress = true → hS = true) :
    ∃ pr, RPCMessage.encode hS m s compress = .ok pr ∧
      RPCMessage.decode hS pr d = .ok m := by
  obtain ⟨mt, meth, okey, seq, md, body⟩ := m
  cases compress with
  | false =>
      refine ⟨(mpackb (headerMap mt meth okey seq false),
        mpackb (.map [("meta", metaBytes md),
          ("body", if mt = .function ∨ mt = .result then s body
                   else body.getD .nil)])), rfl, ?_⟩
      rw [decode_wire]
      exact roundtrip_core mt meth okey seq md body s d hinv
        (fun mdv h => hmeta mdv h) hbody
  | true =>
      have h1 : hS = true := hzip rfl
      subst h1
      refine ⟨(mpackb (headerMap mt meth okey seq true),
        .compressed (mpackb (.map [("meta", metaBytes md),
          ("body", if mt = .function ∨ mt = .result then s body
                   else body.getD .nil)]))), rfl, ?_⟩
      rw [decode_wire_zip]
      exact roundtrip_core mt meth okey seq md body s d hinv
        (fun mdv h => hmeta mdv h) hbody

/-- C1 witness: the round-trip at a concrete FUNCTION message with a
concrete serializer pair and compression enabled. -/
theorem C1_roundtrip_witness :
    (∀ x, sampleDeserializer (sampleSerializer x) = x) ∧
    RPCMessage.metadataMatches sampleRequest ∧
    sampleRequest.body ≠ some MP.nil ∧
    (∃ pr, RPCMessage.encode true sampleRequest sampleSerializer true = .ok pr ∧
      RPCMessage.decode true pr sampleDeserializer = .ok sampleRequest) :=
  ⟨fun x => by cases x <;> rfl,
   fun md h => by cases h; rfl,
   by simp [sampleRequest],
   C1_encode_decode_roundtrip true sampleRequest sampleSerializer
     sampleDeserializer true (fun x => by cases x <;> rfl)
     (fun md h => by cases h; rfl) (by simp [sampleRequest]) (fun _ => rfl)⟩

/-- C2: with the compressor unavailable, encode with compress set to true
fails with ConfigurationError for every message, and decode fails with
ConfigurationError for every frame pair whose header map carries a truthy
zip field, after the header parses and the message type validates; neither
direction falls back to uncompressed handling. -/
theorem C2_no_snappy_configuration_error :
    (∀ (m : RPCMessage) (s : Option MP → MP),
      RPCMessage.encode false m s true =
        .error (.configurationError "python-snappy is not installed")) ∧
    (∀ (raw : MP × MP) (d : MP → Option MP) (hdr tv zv : MP)
        (t : RPCMessageTypes),
      munpackb raw.1 = some hdr → getKey hdr "type" = .ok tv →
      rpcMessageTypeOf tv = .ok t → getKey hdr "zip" = .ok zv →
      zv.truthy = true →
        RPCMessage.decode false raw d =
          .error (.configurationError "python-snappy is not installed")) := by
  refine ⟨fun m s => rfl, ?_⟩
  intro raw d hdr tv zv t h1 h2 h3 h4 h5
  simp [RPCMessage.decode, h1, h2, h3, h4, h5]

/-- C2 witness: decode of a concrete pair whose header carries zip true,
with snappy unavailable, raises ConfigurationError. -/
theorem C2_no_snappy_witness :
    munpackb (mpackb (headerMap .cancel (.str "m") (.str "") (.int 1) true)) =
      some (headerMap .cancel (.str "m") (.str "") (.int 1) true) ∧
    RPCMessage.decode false
      (mpackb (headerMap .cancel (.str "m") (.str "") (.int 1) true), .raw [])
      sampleDeserializer =
      .error (.configurationError "python-snappy is not installed") :=
  ⟨rfl, C2_no_snappy_configuration_error.2
    (mpackb (headerMap .cancel (.str "m") (.str "") (.int 1) true), .raw [])
    sampleDeserializer (headerMap .cancel (.str "m") (.str "") (.int 1) true)
    (.int 5) (.bool true) .cancel rfl rfl rfl rfl rfl⟩

/-- C3: every message that decode returns satisfies the type-to-variant
invariant: its metadata is absent or is an instance of the table entry for
its message type, so decode never silently reconstructs a metadata variant
mismatched with the decoded message type. -/
theorem C3_decode_respects_table (hS : Bool) (raw : MP × MP)
    (d : MP → Option MP) (m : RPCMessage)
    (h : RPCMessage.decode hS raw d = .ok m) : m.metadataMatches := by
  simp only [RPCMessage.decode] at h
  repeat' split at h
  all_goals try simp at h
  all_goals subst h
  all_goals intro mdv hmv
  all_goals (have hmv' : _ = some mdv := hmv; subst hmv')
  all_goals exact metadata_decode_cls _ _ mdv (by assumption)

/-- C3 witness: a concrete successful decode whose output satisfies the
invariant. -/
theorem C3_decode_respects_table_witness :
    RPCMessage.decode true
      (mpackb (headerMap .cancel (.str "m") (.str "") (.int 7) false),
       mpackb (.map [("meta", mpackb (.arr [])), ("body", .nil)]))
      sampleDeserializer =
      .ok ⟨.cancel, .str "m", .str "", .int 7, some .null, none⟩ ∧
    RPCMessage.metadataMatches
      ⟨.cancel, .str "m", .str "", .int 7, some .null, none⟩ :=
  ⟨rfl, C3_decode_respects_table true
    (mpackb (headerMap .cancel (.str "m") (.str "") (.int 7) false),
     mpackb (.map [("meta", mpackb (.arr [])), ("body", .nil)]))
    sampleDeserializer ⟨.cancel, .str "m", .str "", .int 7, some .null, none⟩
    rfl⟩

/-- C4 counterexample: the empty variant ResultMetadata does not encode to
a zero-byte buffer (its encoding is the packed empty tuple, which is
nonempty), and decoding a zero-length metadata buffer through the
ResultMetadata class yields the None sentinel, not the empty variant
instance. -/
theorem C4_counterexample :
    MP.isEmptyBytes (Metadata.encode Metadata.result) = false ∧
    MetadataClass.decode MetadataClass.ResultMetadata (MP.raw []) = .ok none ∧
    MetadataClass.decode MetadataClass.ResultMetadata (MP.raw []) ≠
      .ok (some Metadata.result) :=
  ⟨rfl, rfl, by
    rw [show MetadataClass.decode MetadataClass.ResultMetadata (MP.raw []) =
      .ok none from rfl]
    simp⟩

/-- C4 amended: every empty metadata variant encodes to the packed empty
tuple, a nonempty buffer, and that buffer decodes back to the same empty
variant instance through its class; a zero-length metadata buffer instead
decodes to the None sentinel for every metadata class, including the
classes selected for RESULT, FAILURE and ERROR messages. -/
theorem C4_empty_variant_encoding :
    (∀ md : Metadata, md = .function ∨ md = .result ∨ md = .null →
      Metadata.encode md = mpackb (.arr []) ∧
      MP.isEmptyBytes (Metadata.encode md) = false ∧
      MetadataClass.decode md.cls (Metadata.encode md) = .ok (some md)) ∧
    (∀ c : MetadataClass, MetadataClass.decode c (.raw []) = .ok none) := by
  constructor
  · rintro md (rfl | rfl | rfl) <;> exact ⟨rfl, rfl, rfl⟩
  · intro c
    rfl

/-- C4 witness: the amended statement at the concrete empty variant
ResultMetadata. -/
theorem C4_empty_variant_witness :
    (Metadata.result = .function ∨ Metadata.result = .result ∨
      Metadata.result = .null) ∧
    (Metadata.encode Metadata.result = mpackb (.arr []) ∧
     MP.isEmptyBytes (Metadata.encode Metadata.result) = false ∧
     MetadataClass.decode (Metadata.cls Metadata.result)
       (Metadata.encode Metadata.result) = .ok (some Metadata.result)) :=
  ⟨Or.inr (Or.inl rfl),
   C4_empty_variant_encoding.1 Metadata.result (Or.inr (Or.inl rfl))⟩

/-- C5: encode applies the supplied serializer to the body exactly when the
message type is FUNCTION or RESULT and embeds the body unmodified (with
None becoming nil) otherwise, so the encoding of other types is
independent of the serializer; decode symmetrically applies the supplied
deserializer to the body field exactly for FUNCTION and RESULT and returns
the raw field otherwise. -/
theorem C5_body_serializer_application :
    (∀ (hS : Bool) (m : RPCMessage) (s : Option MP → MP),
      RPCMessage.encode hS m s false =
        .ok (mpackb (headerMap m.msgtype m.method m.order_key m.seq_id false),
          mpackb (.map [("meta", metaBytes m.metadata),
            ("body", if m.msgtype = .function ∨ m.msgtype = .result
                     then s m.body else m.body.getD .nil)]))) ∧
    (∀ (hS : Bool) (m : RPCMessage) (s s' : Option MP → MP) (c : Bool),
      m.msgtype ≠ .function → m.msgtype ≠ .result →
        RPCMessage.encode hS m s c = RPCMessage.encode hS m s' c) ∧
    (∀ (hS : Bool) (t : RPCMessageTypes) (meth okey seq mb bb : MP)
        (d : MP → Option MP) (md : Option Metadata),
      (metadataClassFor t).decode mb = .ok md →
        RPCMessage.decode hS
          (mpackb (headerMap t meth okey seq false),
           mpackb (.map [("meta", mb), ("body", bb)])) d =
          .ok ⟨t, meth, okey, seq, md,
            if t = .function ∨ t = .result then d bb else pyOptional bb⟩) := by
  refine ⟨fun hS m s => rfl, ?_, ?_⟩
  · intro hS m s s' c h1 h2
    obtain ⟨mt, meth, okey, seq, md, body⟩ := m
    simp [RPCMessage.encode, h1, h2]
  · intro hS t meth okey seq mb bb d md hmd
    rw [decode_wire, hmd]

/-- C5 witness: serializer independence and raw body pass-through at a
concrete CANCEL message and frame. -/
theorem C5_body_witness :
    (RPCMessageTypes.cancel ≠ RPCMessageTypes.function ∧
     RPCMessageTypes.cancel ≠ RPCMessageTypes.result ∧
     RPCMessage.encode true sampleCancelMsg sampleSerializer false =
       RPCMessage.encode true sampleCancelMsg (fun _ => .raw []) false) ∧
    ((metadataClassFor .cancel).decode (mpackb (.arr [])) = .ok (some .null) ∧
     RPCMessage.decode true
       (mpackb (headerMap .cancel (.str "m") (.str "") (.int 2) false),
        mpackb (.map [("meta", mpackb (.arr [])), ("body", .nil)]))
       sampleDeserializer =
       .ok ⟨.cancel, .str "m", .str "", .int 2, some .null,
         if RPCMessageTypes.cancel = .function ∨
            RPCMessageTypes.cancel = .result
         then sampleDeserializer .nil else pyOptional .nil⟩) :=
  by
  refine ⟨⟨?_, ?_, ?_⟩, ⟨?_, ?_⟩⟩
  · exact fun h => nomatch h
  · exact fun h => nomatch h
  · exact C5_body_serializer_application.2.1 true sampleCancelMsg
      sampleSerializer (fun _ => .raw []) false
      (fun h => nomatch h) (fun h => nomatch h)
  · rfl
  · exact C5_body_serializer_application.2.2 true .cancel (.str "m") (.str "")
      (.int 2) (mpackb (.arr [])) .nil sampleDeserializer (some .null) rfl

/-- C6: the four reply builders keep the correlation triple of the request
and produce RESULT, FAILURE, ERROR, CANCEL messages respectively; result
carries empty ResultMetadata and the given body, failure and error carry
ErrorMetadata built from the current exception kind name and formatted
traceback with body None, and cancel carries empty NullMetadata and body
None. -/
theorem C6_reply_builders (request : RPCMessage) (result_body : Option MP)
    (exc : CurrentExc) :
    ((RPCMessage.result request result_body).msgtype = .result ∧
     (RPCMessage.result request result_body).request_id = request.request_id ∧
     (RPCMessage.result request result_body).metadata = some .result ∧
     (RPCMessage.result request result_body).body = result_body) ∧
    ((RPCMessage.failure request exc).msgtype = .failure ∧
     (RPCMessage.failure request exc).request_id = request.request_id ∧
     (RPCMessage.failure request exc).metadata =
       some (.error (.str exc.name) (.str exc.formatted)) ∧
     (RPCMessage.failure request exc).body = none) ∧
    ((RPCMessage.error request exc).msgtype = .error ∧
     (RPCMessage.error request exc).request_id = request.request_id ∧
     (RPCMessage.error request exc).metadata =
       some (.error (.str exc.name) (.str exc.formatted)) ∧
     (RPCMessage.error request exc).body = none) ∧
    ((RPCMessage.cancel request).msgtype = .cancel ∧
     (RPCMessage.cancel request).request_id = request.request_id ∧
     (RPCMessage.cancel request).metadata = some .null ∧
     (RPCMessage.cancel request).body = none) :=
  ⟨⟨rfl, rfl, rfl, rfl⟩, ⟨rfl, rfl, rfl, rfl⟩,
   ⟨rfl, rfl, rfl, rfl⟩, ⟨rfl, rfl, rfl, rfl⟩⟩

/-- C7: the type-to-variant table maps indices 0 through 5 to Function,
Stream, Result, Error, Error and Null metadata classes, so FAILURE and
ERROR share the ErrorMetadata payload shape while their decoded messages
remain distinguishable by msgtype. -/
theorem C7_metadata_table :
    metadata_types.get? 0 = some .FunctionMetadata ∧
    metadata_types.get? 1 = some .StreamMetadata ∧
    metadata_types.get? 2 = some .ResultMetadata ∧
    metadata_types.get? 3 = some .ErrorMetadata ∧
    metadata_types.get? 4 = some .ErrorMetadata ∧
    metadata_types.get? 5 = some .NullMetadata ∧
    metadataClassFor .failure = metadataClassFor .error ∧
    RPCMessageTypes.failure ≠ RPCMessageTypes.error ∧
    (∀ (hS : Bool) (meth okey seq a b : MP) (d : MP → Option MP),
      RPCMessage.decode hS
        (mpackb (headerMap .failure meth okey seq false),
         mpackb (.map [("meta", Metadata.encode (.error a b)),
           ("body", .nil)])) d =
        .ok ⟨.failure, meth, okey, seq, some (.error a b), none⟩ ∧
      RPCMessage.decode hS
        (mpackb (headerMap .error meth okey seq false),
         mpackb (.map [("meta", Metadata.encode (.error a b)),
           ("body", .nil)])) d =
        .ok ⟨.error, meth, okey, seq, some (.error a b), none⟩) :=
  by
  refine ⟨rfl, rfl, rfl, rfl, rfl, rfl, rfl, ?_, ?_⟩
  · exact fun h => nomatch h
  · exact fun hS meth okey seq a b d => ⟨rfl, rfl⟩

/-- C8: the header frame produced by encode is always the packed map of
exactly the five fields type, meth, okey, seq, zip taken from the message
and the compress argument, and is never a compressed byte string, whatever
the compress flag. -/
theorem C8_header_frame (hS : Bool) (m : RPCMessage) (s : Option MP → MP)
    (c : Bool) (pr : MP × MP)
    (h : RPCMessage.encode hS m s c = .ok pr) :
    pr.1 = mpackb (headerMap m.msgtype m.method m.order_key m.seq_id c) ∧
    ∀ x, pr.1 ≠ MP.compressed x := by
  simp only [RPCMessage.encode] at h
  split at h
  · split at h
    · simp only [Except.ok.injEq] at h
      subst h
      exact ⟨rfl, fun x hx => nomatch hx⟩
    · simp at h
  · simp only [Except.ok.injEq] at h
    subst h
    exact ⟨rfl, fun x hx => nomatch hx⟩

/-- C8 witness: the header frame of a concrete encode. -/
theorem C8_header_frame_witness :
    RPCMessage.encode true sampleRequest sampleSerializer false =
      .ok samplePair ∧
    samplePair.1 = mpackb (headerMap sampleRequest.msgtype sampleRequest.method
      sampleRequest.order_key sampleRequest.seq_id false) ∧
    ∀ x, samplePair.1 ≠ MP.compressed x :=
  ⟨rfl, C8_header_frame true sampleRequest sampleSerializer false
    samplePair rfl⟩

/-- C9: decoding a pair whose header carries an integer type field outside
0..5 fails with ValueError instead of returning a message. -/
theorem C9_unknown_type_rejected (i : Int) (hbad : i < 0 ∨ 5 < i)
    (meth okey seq zipv body : MP) (d : MP → Option MP) (hS : Bool) :
    RPCMessage.decode hS
      (mpackb (.map [("type", .int i), ("meth", meth), ("okey", okey),
        ("seq", seq), ("zip", zipv)]), body) d = .error .valueError := by
  rcases hbad with hneg | hbig
  · cases i with
    | ofNat n => exact absurd hneg (by simp)
    | negSucc n => rfl
  · cases i with
    | ofNat n =>
        have hbig' : (5 : Int) < (n : Int) := hbig
        obtain ⟨k, rfl⟩ : ∃ k, n = k + 6 := ⟨n - 6, by omega⟩
        rfl
    | negSucc n =>
        exact absurd hbig (by have h := Int.negSucc_lt_zero n; intro hc; omega)

/-- C9 witness: decode rejects the unknown type value 7. -/
theorem C9_unknown_type_witness :
    ((7 : Int) < 0 ∨ (5 : Int) < 7) ∧
    RPCMessage.decode true
      (mpackb (.map [("type", .int 7), ("meth", .str "m"), ("okey", .str ""),
        ("seq", .int 1), ("zip", .bool false)]), .raw [])
      sampleDeserializer = .error .valueError :=
  ⟨Or.inr (by decide),
   C9_unknown_type_rejected 7 (Or.inr (by decide)) (.str "m") (.str "")
     (.int 1) (.bool false) (.raw []) sampleDeserializer true⟩

/-- C10: for every message type, including those whose table variants have
fields, decoding a frame whose metadata bytes are empty succeeds and
yields the None metadata sentinel rather than a variant instance or an
error. -/
theorem C10_empty_metadata_decodes_none (hS : Bool) (t : RPCMessageTypes)
    (meth okey seq : MP) (d : MP → Option MP) :
    RPCMessage.decode hS
      (mpackb (headerMap t meth okey seq false),
       mpackb (.map [("meta", .raw []), ("body", .nil)])) d =
      .ok ⟨t, meth, okey, seq, none,
        if t = .function ∨ t = .result then d .nil else none⟩ := by
  cases t <;> rfl
